import Mathlib

/-!
Shallow embedding of the chienwen-design/line-bot repository's onboarding
state machine and event router, together with theorems checking the frozen
claims of the specification against it.

The repository contains several near-duplicate service variants; the ones the
claims reference are embedded separately and faithfully:

* variant A — `src/index.js` (also `src/unnamed/part_002`, which is the same
  logic): members carry `phone`, `qrcode`, `waiting_for_phone`,
  `pending_phone`; phone edits go through a yes/no confirmation postback.
* variant B — `src/unnamed/part_001`: members carry `phone`, `card_number`,
  `qrcode`, `photo_url`, `registration_step` (0 = registered, 1..3 =
  onboarding, 10..13 = edit flows); includes the restart command and the
  hourly staleness sweep.
* variant C — `src/unnamed/part_003`: same member row as variant B, message
  handler `handleMessageEvent` with steps 1..3 and no edit flows.

Each handler is embedded as a pure function from the loaded member row and
the classified event to the ordered list of effects the JavaScript performs
(database writes, media fetches, artifact generation/uploads, reply
messages).  Applying the database writes of that list in order to the member
row (`runA` / `runB`) gives the post-event row, so both state-change claims
and effect-ordering claims can be stated.
-/

namespace LineBot

/-- JavaScript regex `^09\d{8}$` from the sources: exactly ten digits
beginning with `09` (stated over the character list so the kernel can
evaluate it). -/
def phoneOk (s : String) : Bool :=
  s.length == 10 && s.data.take 2 == ['0', '9'] && s.data.all Char.isDigit

/-- JavaScript regex `^[A-Za-z0-9]{5,}$` from `src/unnamed/part_001`
line 274: at least five alphanumeric characters. -/
def cardOk (s : String) : Bool :=
  decide (5 ≤ s.length) && s.data.all Char.isAlphanum

/-- JavaScript `String.prototype.includes` for a non-empty needle. -/
def containsSub (s sub : String) : Bool :=
  decide (2 ≤ (s.splitOn sub).length)

/-- JavaScript string coercion of a possibly-undefined message text, as it
happens when `event.message.text?.trim()` (undefined for image events) is fed
to `RegExp.test`. -/
def jsStr : Option String → String
  | some s => s
  | none => "undefined"

/-- `PUBLIC_BASE_URL`; the handlers only ever use it by string substitution. -/
def baseUrl : String := "https://example.ngrok-free.app"

/-- Collaborator model (Artifact Service, spec §6): uploads are idempotent per
(folder, key) and return a stable public URL determined by them. -/
def uploadUrlOf (folder key : String) : String :=
  "https://res.example.com/" ++ folder ++ "/" ++ key

/-- A classified inbound message event (Event Classifier, spec §4.1): either
trimmed text or an image with its media id. -/
inductive MsgEvent
  | textMsg (t : String)
  | imageMsg (mediaId : String)
deriving DecidableEq, Repr

/-! ## Variant A: `src/index.js` -/

/-- A row of the `members` table of `src/index.js` (id, line_user_id and
name are set at insertion; `line_user_id` is the key the handlers load by,
so it does not need to be carried on the row itself). -/
structure MemberA where
  id : Nat
  name : String
  phone : Option String
  qrcode : Option String
  waitingForPhone : Bool
  pendingPhone : Option String
  createdAt : Nat
deriving DecidableEq, Repr

/-- An outbound message of variant A.  `confirm` is the yes/no template of
`src/index.js` lines 243-254, whose text names the old and the new phone
number; `flexMenu` is `createFlexMenu` applied to the member's stored
qrcode. -/
inductive MsgA
  | text (s : String)
  | imageMsg (url : String)
  | confirm (oldPhone newPhone : String)
  | flexMenu (qr : Option String)
deriving DecidableEq, Repr

/-- The `UPDATE`/`INSERT` statements `src/index.js` issues on `members`. -/
inductive WriteA
  | insertMember (name : String)
  | setQrcodeById (url : String)
  | setWaiting
  | setPending (p : String)
  | setPhone (p : String)
  | clearPending
  | clearPendingStopWaiting
deriving DecidableEq, Repr

/-- One effect of a variant-A handler, in the order the JavaScript awaits
them. -/
inductive EffA
  | dbWrite (w : WriteA)
  | reply (ms : List MsgA)
  | fetchMedia (mid : String)
  | genQr (url : String)
  | upload (folder key : String)
deriving DecidableEq, Repr

/-- Semantics of each variant-A write on an existing member row.
`insertMember` creates a new row and therefore does not modify an existing
one. -/
def applyWriteA (m : MemberA) (w : WriteA) : MemberA :=
  match w with
  | .insertMember _ => m
  | .setQrcodeById u => { m with qrcode := some u }
  | .setWaiting => { m with waitingForPhone := true }
  | .setPending p => { m with pendingPhone := some p }
  | .setPhone p => { m with phone := some p, waitingForPhone := false }
  | .clearPending => { m with pendingPhone := none }
  | .clearPendingStopWaiting => { m with pendingPhone := none, waitingForPhone := false }

/-- Applies the database writes of an effect list, in order, to a member
row. -/
def runA (m : MemberA) (effs : List EffA) : MemberA :=
  effs.foldl (fun acc e => match e with | .dbWrite w => applyWriteA acc w | _ => acc) m

/-- `src/index.js` lines 316-323: the `my_info` text card. -/
def memberInfoTextA (m : MemberA) : String :=
  "【我的會員資訊】\n📝 姓名: " ++ (if m.name == "" then "未設定" else m.name) ++
  "\n📞 電話: " ++ (m.phone.getD "未設定") ++
  "\n🆔 會員 ID: " ++ toString m.id ++
  "\n📅 加入日期: " ++ toString m.createdAt

/-- `src/index.js` line 151: the phone prompt sent after a follow. -/
def phonePromptA : String := "請輸入您的聯絡電話（例如：0912345678），以完成會員資料。"

/-- `updatePhoneAndSendMenu` of `src/index.js` lines 363-380: persist the
phone (clearing the waiting flag), then reply with the confirmation texts and
the flex menu built from the member's stored qrcode (the re-read row after a
phone write carries the same qrcode). -/
def updatePhoneAndSendMenuA (m : MemberA) (phone : String) : List EffA :=
  [.dbWrite (.setPhone phone),
   .reply [.text ("✅ 您的電話已更新為：" ++ phone),
           .text "以下是您的會員功能選單👇",
           .flexMenu m.qrcode]]

/-- `handleFollowEvent` of `src/index.js` lines 100-154.  `newId` is the id
the insert returns for a fresh member. -/
def handleFollowEventA (member : Option MemberA) (displayName : String) (newId : Nat) :
    List EffA :=
  match member with
  | none =>
      [.dbWrite (.insertMember displayName),
       .genQr (baseUrl ++ "/member/" ++ toString newId),
       .upload "line_qrcodes" ("member_" ++ toString newId),
       .dbWrite (.setQrcodeById (uploadUrlOf "line_qrcodes" ("member_" ++ toString newId))),
       .reply [.text ("🎉 歡迎加入會員，" ++ displayName ++ "！"), .text phonePromptA]]
  | some _ =>
      [.dbWrite .setWaiting,
       .reply [.text ("🎉 歡迎加入會員，" ++ displayName ++ "！"), .text phonePromptA]]

/-- `handleMessage` of `src/index.js` lines 157-273.  Image messages are
handled before the member row is even loaded (lines 161-194); text is trimmed
by the source, so `textMsg` carries the trimmed content.  `now` stands for
`Date.now()` and `uid` for `event.source.userId`. -/
def handleMessageA (member : Option MemberA) (ev : MsgEvent) (now : Nat) (uid : String) :
    List EffA :=
  match ev with
  | .imageMsg mid =>
      [.fetchMedia mid,
       .upload "photo_area" (uid ++ "_" ++ toString now),
       .reply [.text ("📸 照片上傳成功！\n✅ 已儲存於雲端 photo_area\n🌐 " ++
                      uploadUrlOf "photo_area" (uid ++ "_" ++ toString now))]]
  | .textMsg t =>
    match member with
    | none => [.reply [.text "⚠️ 查無會員資料，請重新加入。"]]
    | some m =>
      if t == "我要上傳照片" then
        [.reply [.text "請直接傳送您要上傳的照片給我 📷"]]
      else if t == "修改電話" then
        [.dbWrite .setWaiting, .reply [.text "🔄 請輸入您的新聯絡電話（例如：0912345678）"]]
      else if m.waitingForPhone then
        if phoneOk t then
          match m.phone with
          | some old => [.dbWrite (.setPending t), .reply [.confirm old t]]
          | none => updatePhoneAndSendMenuA m t
        else
          [.reply [.text "⚠️ 請輸入正確的手機格式（例如：0912345678）"]]
      else if !t.data.isEmpty && t.data.all Char.isDigit then
        [.reply [.text "⚠️ 若要修改電話，請輸入「修改電話」"]]
      else []

/-- `handlePostback` of `src/index.js` lines 276-360.  The five `if` blocks
test mutually exclusive `data` values, so sequential `if`/`else` is
equivalent to the source's sequence of early-returning `if`s. -/
def handlePostbackA (member : Option MemberA) (data : String) : List EffA :=
  match member with
  | none => []
  | some m =>
    if data == "confirm_update_phone_yes" && m.pendingPhone.isSome then
      updatePhoneAndSendMenuA m (m.pendingPhone.getD "") ++ [.dbWrite .clearPending]
    else if data == "confirm_update_phone_no" then
      [.dbWrite .clearPendingStopWaiting, .reply [.text "❎ 已取消電話更新。"]]
    else if data == "my_qr" && m.qrcode.isSome then
      [.reply [.imageMsg (m.qrcode.getD "")]]
    else if data == "my_info" then
      if m.phone.isNone then
        [.dbWrite .setWaiting,
         .reply [.text (memberInfoTextA m),
                 .text "⚠️ 您尚未設定聯絡電話，請輸入您的電話（例如：0912345678）以完成會員資料。"]]
      else
        [.reply [.text (memberInfoTextA m),
                 .text "若要修改電話，請點選下方「📞 修改電話」按鈕或輸入「修改電話」"]]
    else if data == "edit_phone" then
      [.dbWrite .setWaiting, .reply [.text "🔄 請輸入您的新聯絡電話（例如：0912345678）"]]
    else []

/-- `true` on persistence effects (state/field writes) of variant A. -/
def isWriteA : EffA → Bool
  | .dbWrite _ => true
  | _ => false

/-- `true` on reply-message effects of variant A. -/
def isReplyA : EffA → Bool
  | .reply _ => true
  | _ => false

/-- Holds when no database write occurs after a reply message in the effect
list: the ordering contract of spec §4.3. -/
def writesBeforeRepliesA : List EffA → Bool
  | [] => true
  | e :: rest =>
      (!(isReplyA e) || rest.all (fun x => !(isWriteA x))) && writesBeforeRepliesA rest

/-! ## Variants B (`src/unnamed/part_001`) and C (`src/unnamed/part_003`)

Both variants use the same `members` row: `phone`, `card_number`, `qrcode`,
`photo_url` and the integer `registration_step` (0 registered, 1 awaiting
phone, 2 awaiting card, 3 awaiting photo, 10 edit menu, 11/12/13 editing
phone/card/photo). -/

/-- A row of the `members` table of `src/unnamed/part_001` /
`src/unnamed/part_003`. -/
structure MemberB where
  id : Nat
  name : String
  phone : Option String
  cardNumber : Option String
  qrcode : Option String
  photoUrl : Option String
  registrationStep : Nat
  createdAt : Nat
deriving DecidableEq, Repr

/-- An outbound message of variants B and C.  `flexInfo` is the member-info
bubble (photo hero plus name/phone/card lines); `flexMenu` is the
two-button menu built from a qrcode URL. -/
inductive MsgB
  | text (s : String)
  | imageMsg (url : String)
  | flexInfo (photo : String) (name phone card : String)
  | flexMenu (qr : String)
deriving DecidableEq, Repr

/-- One `UPDATE members SET ...` statement of variants B and C: each field
that the statement sets is `some` of its new value (`some none` writes SQL
NULL, which node-postgres produces for an undefined JS parameter). -/
structure UpdB where
  phone : Option (Option String) := none
  cardNumber : Option (Option String) := none
  photoUrl : Option (Option String) := none
  qrcode : Option (Option String) := none
  step : Option Nat := none
deriving DecidableEq, Repr

/-- Semantics of a variant-B update on a member row. -/
def applyUpdB (m : MemberB) (u : UpdB) : MemberB :=
  { m with
    phone := u.phone.getD m.phone,
    cardNumber := u.cardNumber.getD m.cardNumber,
    photoUrl := u.photoUrl.getD m.photoUrl,
    qrcode := u.qrcode.getD m.qrcode,
    registrationStep := u.step.getD m.registrationStep }

/-- One effect of a variant-B/C handler, in the order the JavaScript awaits
them.  `insertMember` is the `INSERT INTO members` of the follow path. -/
inductive EffB
  | dbWrite (u : UpdB)
  | insertMember (name : String)
  | reply (ms : List MsgB)
  | fetchMedia (mid : String)
  | genQr (url : String)
  | upload (folder key : String)
deriving DecidableEq, Repr

/-- Applies the database writes of an effect list, in order, to a member
row (`insertMember` creates a different row, not this one). -/
def runB (m : MemberB) (effs : List EffB) : MemberB :=
  effs.foldl (fun acc e => match e with | .dbWrite u => applyUpdB acc u | _ => acc) m

/-- JavaScript template interpolation of a nullable column
(null prints as the string `null`). -/
def jsShow : Option String → String
  | some s => s
  | none => "null"

/-- The fallback avatar used by the `my_info` bubbles when no photo is on
file. -/
def defaultAvatar : String := "https://cdn-icons-png.flaticon.com/512/149/149071.png"

/-- `handleFollow` of `src/unnamed/part_001` lines 124-138: insert a fresh
row at step 1 when the user is unknown, then (in every case) reply with the
fixed phone prompt.  A re-follow performs no write at all. -/
def handleFollowB (member : Option MemberB) (displayName : String) : List EffB :=
  (match member with
   | none => [.insertMember displayName]
   | some _ => []) ++
  [.reply [.text "請輸入您的手機號碼（例如：0912345678）開始註冊。"]]

/-- `handlePostback` of `src/unnamed/part_001` lines 141-198.  The three
`if`s are not chained, but their `data` tests are mutually exclusive, so the
concatenation of the three guarded blocks is the faithful translation. -/
def handlePostbackB (member : Option MemberB) (data : String) : List EffB :=
  match member with
  | none => []
  | some m =>
    (if data == "my_qr" then
       match m.qrcode with
       | some q => [.reply [.imageMsg q]]
       | none => [.reply [.text "⚠️ 尚未完成註冊，沒有 QR Code。"]]
     else []) ++
    (if data == "my_info" then
       if m.registrationStep == 0 then
         [.reply [.flexInfo (m.photoUrl.getD defaultAvatar) m.name
                    (jsShow m.phone) (jsShow m.cardNumber)]]
       else [.reply [.text "⚠️ 您尚未完成註冊。"]]
     else []) ++
    (if data == "edit_info" then
       [.dbWrite { step := some 10 }, .reply [.text "請輸入要修改的項目：手機 / 卡號 / 照片"]]
     else [])

/-- The live step-3 image flow of `src/unnamed/part_001` lines 227-258:
fetch the media, upload the photo under a timestamped key, persist
`photo_url` and step 0, then always regenerate the QR code under the fixed
key `member_{id}` and persist it, then reply success plus the menu. -/
def photoFlowB1 (m : MemberB) (mid : String) (now : Nat) : List EffB :=
  [.fetchMedia mid,
   .upload "member_photos" ("member_" ++ toString m.id ++ "_" ++ toString now),
   .dbWrite { photoUrl := some (some (uploadUrlOf "member_photos"
                ("member_" ++ toString m.id ++ "_" ++ toString now))),
              step := some 0 },
   .genQr (baseUrl ++ "/member/" ++ toString m.id),
   .upload "line_qrcodes" ("member_" ++ toString m.id),
   .dbWrite { qrcode := some (some (uploadUrlOf "line_qrcodes"
                ("member_" ++ toString m.id))) },
   .reply [.text "📸 照片上傳成功！",
           .text "✅ 註冊完成，以下是您的主選單👇",
           .flexMenu (uploadUrlOf "line_qrcodes" ("member_" ++ toString m.id))]]

/-- The second step-3 image flow of `src/unnamed/part_001` lines 283-319
(dead for image events, which the earlier block already consumes): persist
`photo_url` alone, then the QR code together with step 0, and reply with the
QR image itself. -/
def photoFlowB2 (m : MemberB) (mid : String) (now : Nat) : List EffB :=
  [.fetchMedia mid,
   .upload "member_photos" ("member_" ++ toString m.id ++ "_" ++ toString now),
   .dbWrite { photoUrl := some (some (uploadUrlOf "member_photos"
                ("member_" ++ toString m.id ++ "_" ++ toString now))) },
   .genQr (baseUrl ++ "/member/" ++ toString m.id),
   .upload "line_qrcodes" ("member_" ++ toString m.id),
   .dbWrite { qrcode := some (some (uploadUrlOf "line_qrcodes"
                ("member_" ++ toString m.id))),
              step := some 0 },
   .reply [.text "📸 照片上傳成功！",
           .text "✅ 註冊完成！以下是您的 QR Code 👇",
           .imageMsg (uploadUrlOf "line_qrcodes" ("member_" ++ toString m.id))]]

/-- The step-13 photo-edit flow of `src/unnamed/part_001` lines 364-380. -/
def photoEditFlowB (m : MemberB) (mid : String) (now : Nat) : List EffB :=
  [.fetchMedia mid,
   .upload "member_photos" ("member_" ++ toString m.id ++ "_" ++ toString now),
   .dbWrite { photoUrl := some (some (uploadUrlOf "member_photos"
                ("member_" ++ toString m.id ++ "_" ++ toString now))),
              step := some 0 },
   .reply [.text "📸 新照片已更新完成！"]]

/-- `handleMessage` of `src/unnamed/part_001` lines 201-382.  The restart
command is tested before the member-existence check; `msgText` is undefined
for image events, which JavaScript coerces to the string `undefined` inside
the regex tests and node-postgres serializes as NULL when written. -/
def handleMessageB (member : Option MemberB) (ev : MsgEvent) (now : Nat) : List EffB :=
  let msgText : Option String := match ev with | .textMsg t => some t | .imageMsg _ => none
  let isImage : Bool := match ev with | .imageMsg _ => true | .textMsg _ => false
  if msgText == some "重新註冊" then
    [.dbWrite { step := some 1 }, .reply [.text "🔄 已重新開始註冊，請輸入您的手機號碼："]]
  else match member with
  | none => []
  | some m =>
    if msgText == some "我的資訊" then
      handlePostbackB (some m) "my_info"
    else if isImage && m.registrationStep == 3 then
      match ev with
      | .imageMsg mid => photoFlowB1 m mid now
      | .textMsg _ => []
    else if m.registrationStep == 1 then
      if phoneOk (jsStr msgText) then
        [.dbWrite { phone := some msgText, step := some 2 },
         .reply [.text "📱 手機號碼已登錄成功，請輸入您的會員卡號（例如：A123456）"]]
      else
        [.reply [.text "❌ 手機號格式不正確，請重新輸入（例如：0912345678）"]]
    else if m.registrationStep == 2 then
      if cardOk (jsStr msgText) then
        [.dbWrite { cardNumber := some msgText, step := some 3 },
         .reply [.text "💳 會員卡號已登錄成功，請上傳您的照片以完成註冊。"]]
      else
        [.reply [.text "❌ 卡號格式不正確，請重新輸入（例如：A123456）"]]
    else if m.registrationStep == 3 then
      match ev with
      | .imageMsg mid => photoFlowB2 m mid now
      | .textMsg _ => [.reply [.text "請上傳您的照片以完成註冊。"]]
    else if m.registrationStep == 10 then
      match msgText with
      | none => []
      | some t =>
        if containsSub t "手機" then
          [.dbWrite { step := some 11 }, .reply [.text "請輸入新的手機號碼："]]
        else if containsSub t "卡號" then
          [.dbWrite { step := some 12 }, .reply [.text "請輸入新的會員卡號："]]
        else if containsSub t "照片" then
          [.dbWrite { step := some 13 }, .reply [.text "請上傳新的會員照片。"]]
        else [.reply [.text "請輸入：手機 / 卡號 / 照片"]]
    else if m.registrationStep == 11 && phoneOk (jsStr msgText) then
      [.dbWrite { phone := some msgText, step := some 0 },
       .reply [.text "✅ 手機號碼已更新！"]]
    else if m.registrationStep == 12 then
      [.dbWrite { cardNumber := some msgText, step := some 0 },
       .reply [.text "✅ 會員卡號已更新！"]]
    else if m.registrationStep == 13 && isImage then
      match ev with
      | .imageMsg mid => photoEditFlowB m mid now
      | .textMsg _ => []
    else []

/-- The hourly staleness sweep of `src/unnamed/part_001` lines 506-518:
`UPDATE members SET registration_step = 1 WHERE registration_step BETWEEN 1
AND 3 AND created_at < NOW() - INTERVAL '24 HOURS'`.  Timestamps are
modelled in hours. -/
def staleWindowHours : Nat := 24

/-- The sweep's `WHERE` clause: onboarding step 1..3 and a `created_at` more
than 24 hours in the past. -/
def sweepStale (now : Nat) (m : MemberB) : Bool :=
  decide (1 ≤ m.registrationStep) && decide (m.registrationStep ≤ 3) &&
    decide (m.createdAt + staleWindowHours < now)

/-- One run of the sweep's interval callback over the member table: the
matching rows are reset to step 1; the callback issues no LINE message at
all, hence the second component is always the empty message list. -/
def sweepTick (now : Nat) (members : List MemberB) : List MemberB × List MsgB :=
  (members.map (fun m => if sweepStale now m then { m with registrationStep := 1 } else m),
   [])

/-- Modelled from the spec (claim C8's own wording): the spec's staleness
condition reads the member's last-activity time, a field the stored
`members` row of the source does not have (it only has `created_at`); the
pair carries that spec-level timestamp alongside the row so the two
conditions can be compared. -/
structure TrackedMemberB where
  member : MemberB
  lastActiveAt : Nat
deriving DecidableEq, Repr

/-- Modelled from the spec: the sweep condition as claim C8 states it —
state one of the three onboarding states and `lastActiveAt` older than the
24-hour staleness window. -/
def sweepStaleSpec (now : Nat) (t : TrackedMemberB) : Bool :=
  decide (1 ≤ t.member.registrationStep) && decide (t.member.registrationStep ≤ 3) &&
    decide (t.lastActiveAt + staleWindowHours < now)

/-- `handleMessageEvent` of `src/unnamed/part_003` lines 98-245.  Note that
its step 2 persists any text as the card number, with no format check. -/
def handleMessageEventC (member : Option MemberB) (ev : MsgEvent) (now : Nat) : List EffB :=
  match member with
  | none => []
  | some m =>
    match ev with
    | .textMsg t =>
      if t == "我的資訊" then
        if m.registrationStep == 0 then
          [.reply [.flexInfo (m.photoUrl.getD defaultAvatar) m.name
                     (jsShow m.phone) (jsShow m.cardNumber)]]
        else [.reply [.text "⚠️ 您尚未完成註冊，請依指示輸入資料。"]]
      else if m.registrationStep == 1 then
        if phoneOk t then
          [.dbWrite { phone := some (some t), step := some 2 },
           .reply [.text "✅ 手機號碼已登錄成功，請輸入您的會員卡號（例如：A123456）。"]]
        else
          [.reply [.text "⚠️ 手機格式錯誤，請重新輸入（例如：0912345678）"]]
      else if m.registrationStep == 2 then
        [.dbWrite { cardNumber := some (some t), step := some 3 },
         .reply [.text "💳 會員卡號已登錄成功，請上傳一張您的照片（可用於會員識別）。"]]
      else if m.registrationStep == 3 then
        [.reply [.text "請上傳您的照片（可用於會員識別）。"]]
      else if m.registrationStep == 0 then
        [.reply [.text "✅ 您已完成會員註冊，可使用主選單功能。"]]
      else []
    | .imageMsg mid =>
      if m.registrationStep == 3 then
        [.fetchMedia mid,
         .upload "member_photos" ("member_" ++ toString m.id ++ "_" ++ toString now),
         .dbWrite { photoUrl := some (some (uploadUrlOf "member_photos"
                      ("member_" ++ toString m.id ++ "_" ++ toString now))),
                    step := some 0 },
         .genQr (baseUrl ++ "/member/" ++ toString m.id),
         .upload "line_qrcodes" ("member_" ++ toString m.id),
         .dbWrite { qrcode := some (some (uploadUrlOf "line_qrcodes"
                      ("member_" ++ toString m.id))) },
         .reply [.text "📸 照片上傳成功！",
                 .text "✅ 會員資料建立完成！以下是您的功能選單👇",
                 .flexMenu (uploadUrlOf "line_qrcodes" ("member_" ++ toString m.id))]]
      else
        [.reply [.text "目前不是上傳照片階段喔～請依照指示操作。"]]

/-! ## Concrete member rows used by witnesses and counterexamples -/

/-- A fully registered variant-B member (step 0, every field on file). -/
def memberRegistered : MemberB :=
  { id := 7
    name := "王小明"
    phone := some "0912345678"
    cardNumber := some "A1234X"
    qrcode := some "https://old.example/qr"
    photoUrl := some "https://old.example/p"
    registrationStep := 0
    createdAt := 0 }

/-- A variant-B member awaiting the card number (step 2). -/
def memberAwaitCard : MemberB :=
  { memberRegistered with registrationStep := 2, cardNumber := none }

/-- A variant-B member awaiting the photo (step 3) whose qrcode is already on
file from an earlier registration round. -/
def memberAwaitPhoto : MemberB :=
  { memberRegistered with registrationStep := 3 }

/-- A variant-B member inside the phone-edit flow (step 11) with a phone on
file. -/
def memberEditPhone : MemberB :=
  { memberRegistered with registrationStep := 11 }

/-- A variant-B member in step 2 whose row was created more than 24 hours
ago. -/
def memberStaleRow : MemberB :=
  { memberRegistered with registrationStep := 2, createdAt := 0 }

/-- The same row paired with a recent spec-level last-activity time. -/
def trackedStaleRow : TrackedMemberB :=
  { member := memberStaleRow
    lastActiveAt := 40 }

/-- A variant-A member in the phone-confirmation sub-state: phone on file and
a pending replacement awaiting the yes/no postback. -/
def memberConfirmPending : MemberA :=
  { id := 3
    name := "小華"
    phone := some "0911111111"
    qrcode := some "https://q.example/qr"
    waitingForPhone := true
    pendingPhone := some "0922222222"
    createdAt := 0 }

/-- A variant-A member at rest: not waiting for a phone, nothing pending. -/
def memberIdleA : MemberA :=
  { memberConfirmPending with waitingForPhone := false, pendingPhone := none }

/-! ## Claim C1: the restart command -/

/-- C1, counterexample.  The restart command on a fully registered member of
`src/unnamed/part_001` sets the state back to `AwaitingPhone` (step 1) but
clears none of phone, card number, photo URL, or QR-code URL, contradicting
the claim that all four are cleared. -/
theorem c1_counterexample :
    (runB memberRegistered
        (handleMessageB (some memberRegistered) (.textMsg "重新註冊") 0)).registrationStep
        = 1 ∧
    (runB memberRegistered
        (handleMessageB (some memberRegistered) (.textMsg "重新註冊") 0)).phone
        = some "0912345678" ∧
    (runB memberRegistered
        (handleMessageB (some memberRegistered) (.textMsg "重新註冊") 0)).cardNumber
        = some "A1234X" ∧
    (runB memberRegistered
        (handleMessageB (some memberRegistered) (.textMsg "重新註冊") 0)).photoUrl
        = some "https://old.example/p" ∧
    (runB memberRegistered
        (handleMessageB (some memberRegistered) (.textMsg "重新註冊") 0)).qrcode
        = some "https://old.example/qr" := by
  decide

/-- C1, amended.  A Text event carrying the restart command `重新註冊`, from
any state (and even before the member-existence check), produces exactly the
step-1 write and the restart-instruction reply; applying it to any member row
sets the state to `AwaitingPhone` (step 1) and leaves phone, card number,
photo URL and QR-code URL (and every other field) unchanged — nothing is
cleared. -/
theorem c1_amended (member : Option MemberB) (now : Nat) :
    handleMessageB member (.textMsg "重新註冊") now =
      [.dbWrite { step := some 1 },
       .reply [.text "🔄 已重新開始註冊，請輸入您的手機號碼："]] ∧
    ∀ m : MemberB, runB m (handleMessageB member (.textMsg "重新註冊") now) =
      { m with registrationStep := 1 } := by
  constructor
  · rfl
  · intro m
    obtain ⟨a, b, c, d, e, f, g, h⟩ := m
    rfl

/-! ## Claim C2: photo step completes registration, QR regeneration -/

/-- C2, counterexample.  In `src/unnamed/part_003` (and identically in
`src/unnamed/part_001`), the photo step regenerates the QR artifact and
persists its URL even though the member's `qrcode` is already set,
contradicting the claim that generation happens only when `qrCodeUrl` is
absent. -/
theorem c2_counterexample :
    memberAwaitPhoto.qrcode = some "https://old.example/qr" ∧
    EffB.genQr (baseUrl ++ "/member/7")
      ∈ handleMessageEventC (some memberAwaitPhoto) (.imageMsg "mid1") 5 ∧
    EffB.upload "line_qrcodes" "member_7"
      ∈ handleMessageEventC (some memberAwaitPhoto) (.imageMsg "mid1") 5 ∧
    (runB memberAwaitPhoto
        (handleMessageEventC (some memberAwaitPhoto) (.imageMsg "mid1") 5)).qrcode
      = some (uploadUrlOf "line_qrcodes" "member_7") := by
  decide

/-- C2, amended.  For a member at step 3 (`AwaitingPhoto`), an Image event
transitions to step 0 (`Registered`) with the photo URL persisted, and the
QR artifact is always regenerated and its URL re-persisted, regardless of
whether `qrcode` is already set; the artifact is stored under the single
fixed key `member_{id}`, so replaying the photo step overwrites the same
artifact rather than creating a second distinct one.  This holds in both
handlers the claim cites: `src/unnamed/part_003`'s `handleMessageEvent` and
`src/unnamed/part_001`'s `handleMessage` — whose image route at step 3 is
its first photo flow (lines 227-258), while the claim's cited second block
(lines 283-325, dead for images), proved below as well, stores the
artifact under the same fixed key. -/
theorem c2_amended (m : MemberB) (mid : String) (now : Nat)
    (h : m.registrationStep = 3) :
    (runB m (handleMessageEventC (some m) (.imageMsg mid) now)).registrationStep = 0 ∧
    (runB m (handleMessageEventC (some m) (.imageMsg mid) now)).photoUrl =
      some (uploadUrlOf "member_photos"
        ("member_" ++ toString m.id ++ "_" ++ toString now)) ∧
    (runB m (handleMessageEventC (some m) (.imageMsg mid) now)).qrcode =
      some (uploadUrlOf "line_qrcodes" ("member_" ++ toString m.id)) ∧
    EffB.genQr (baseUrl ++ "/member/" ++ toString m.id)
      ∈ handleMessageEventC (some m) (.imageMsg mid) now ∧
    EffB.upload "line_qrcodes" ("member_" ++ toString m.id)
      ∈ handleMessageEventC (some m) (.imageMsg mid) now ∧
    handleMessageB (some m) (.imageMsg mid) now = photoFlowB1 m mid now ∧
    (runB m (handleMessageB (some m) (.imageMsg mid) now)).registrationStep = 0 ∧
    (runB m (handleMessageB (some m) (.imageMsg mid) now)).photoUrl =
      some (uploadUrlOf "member_photos"
        ("member_" ++ toString m.id ++ "_" ++ toString now)) ∧
    (runB m (handleMessageB (some m) (.imageMsg mid) now)).qrcode =
      some (uploadUrlOf "line_qrcodes" ("member_" ++ toString m.id)) ∧
    EffB.genQr (baseUrl ++ "/member/" ++ toString m.id)
      ∈ handleMessageB (some m) (.imageMsg mid) now ∧
    EffB.upload "line_qrcodes" ("member_" ++ toString m.id)
      ∈ handleMessageB (some m) (.imageMsg mid) now ∧
    (runB m (photoFlowB2 m mid now)).registrationStep = 0 ∧
    (runB m (photoFlowB2 m mid now)).qrcode =
      some (uploadUrlOf "line_qrcodes" ("member_" ++ toString m.id)) ∧
    EffB.upload "line_qrcodes" ("member_" ++ toString m.id) ∈ photoFlowB2 m mid now := by
  simp [handleMessageEventC, handleMessageB, photoFlowB1, photoFlowB2, h,
    runB, applyUpdB]

/-- C2, witness: the amended theorem applied to the concrete step-3 member
with an existing qrcode, for both variants' handlers. -/
theorem c2_witness :
    memberAwaitPhoto.registrationStep = 3 ∧
    (runB memberAwaitPhoto
        (handleMessageEventC (some memberAwaitPhoto) (.imageMsg "mid1") 5)).registrationStep
      = 0 ∧
    (runB memberAwaitPhoto
        (handleMessageB (some memberAwaitPhoto) (.imageMsg "mid1") 5)).registrationStep
      = 0 := by
  obtain ⟨hc, -, -, -, -, -, hb, -⟩ := c2_amended memberAwaitPhoto "mid1" 5 rfl
  exact ⟨rfl, hc, hb⟩

/-! ## Claim C3: card-number validation at step 2 -/

/-- C3, counterexample.  `src/unnamed/part_003` (`handleMessageEvent`, step
2) persists the three-character non-matching text `abc` as the card number
and advances to step 3, contradicting the claim that non-matching text
leaves state and card number unchanged. -/
theorem c3_counterexample :
    cardOk "abc" = false ∧
    (runB memberAwaitCard
        (handleMessageEventC (some memberAwaitCard) (.textMsg "abc") 0)).cardNumber
      = some "abc" ∧
    (runB memberAwaitCard
        (handleMessageEventC (some memberAwaitCard) (.textMsg "abc") 0)).registrationStep
      = 3 := by
  decide

/-- C3, amended.  In `src/unnamed/part_001` (`handleMessage`), for a member
at step 2 (`AwaitingCard`), a Text event other than the restart and
my-info commands is accepted — card number persisted, transition to step 3 —
if and only if the text is at least five alphanumeric characters; on
non-matching text the member row is unchanged and the reply is the
format-error message.  The `src/unnamed/part_003` variant instead accepts
any text at step 2 (see the counterexample). -/
theorem c3_amended (m : MemberB) (t : String) (now : Nat)
    (h2 : m.registrationStep = 2) (hr : t ≠ "重新註冊") (hi : t ≠ "我的資訊") :
    (cardOk t = true →
      handleMessageB (some m) (.textMsg t) now =
        [.dbWrite { cardNumber := some (some t), step := some 3 },
         .reply [.text "💳 會員卡號已登錄成功，請上傳您的照片以完成註冊。"]] ∧
      runB m (handleMessageB (some m) (.textMsg t) now) =
        { m with cardNumber := some t, registrationStep := 3 }) ∧
    (cardOk t = false →
      handleMessageB (some m) (.textMsg t) now =
        [.reply [.text "❌ 卡號格式不正確，請重新輸入（例如：A123456）"]] ∧
      runB m (handleMessageB (some m) (.textMsg t) now) = m) := by
  obtain ⟨a, b, c, d, e, f, g, h⟩ := m
  simp only [MemberB.registrationStep] at h2
  subst h2
  constructor
  · intro hc
    simp [handleMessageB, beq_iff_eq, hr, hi, jsStr, hc, runB, applyUpdB]
  · intro hc
    simp [handleMessageB, beq_iff_eq, hr, hi, jsStr, hc, runB, applyUpdB]

/-- C3, witness: the amended theorem applied to the concrete step-2 member
and the accepted card number `A1B2C3`. -/
theorem c3_witness :
    cardOk "A1B2C3" = true ∧
    runB memberAwaitCard
        (handleMessageB (some memberAwaitCard) (.textMsg "A1B2C3") 0) =
      { memberAwaitCard with cardNumber := some "A1B2C3", registrationStep := 3 } :=
  ⟨by decide,
   ((c3_amended memberAwaitCard "A1B2C3" 0 rfl (by decide) (by decide)).1 (by decide)).2⟩

/-! ## Claim C4: phone edit requires confirmation when a phone is on file -/

/-- C4, counterexample.  In `src/unnamed/part_001`, a member in the
phone-edit state (step 11) who already has a phone on file sends a matching
new number and the handler updates the phone directly — no pending stash, no
confirmation prompt — contradicting the claim. -/
theorem c4_counterexample :
    memberEditPhone.phone = some "0912345678" ∧
    phoneOk "0922222222" = true ∧
    handleMessageB (some memberEditPhone) (.textMsg "0922222222") 0 =
      [.dbWrite { phone := some (some "0922222222"), step := some 0 },
       .reply [.text "✅ 手機號碼已更新！"]] ∧
    (runB memberEditPhone
        (handleMessageB (some memberEditPhone) (.textMsg "0922222222") 0)).phone
      = some "0922222222" := by
  decide

/-- C4, amended.  In `src/index.js` (`handleMessage`), for a member in the
phone-edit state (`waiting_for_phone` set) whose phone is already non-null,
a Text event matching the phone pattern does not update the phone directly:
the new value is stashed in `pending_phone`, the phone is unchanged, and the
reply is the yes/no confirmation prompt naming the old and new numbers.  The
`src/unnamed/part_001` variant (step 11) instead applies the new number
directly (see the counterexample). -/
theorem c4_amended (m : MemberA) (t old : String) (now : Nat) (uid : String)
    (hw : m.waitingForPhone = true) (hp : m.phone = some old)
    (ht : phoneOk t = true) :
    handleMessageA (some m) (.textMsg t) now uid =
      [.dbWrite (.setPending t), .reply [.confirm old t]] ∧
    (runA m (handleMessageA (some m) (.textMsg t) now uid)).phone = some old ∧
    (runA m (handleMessageA (some m) (.textMsg t) now uid)).pendingPhone = some t := by
  have h1 : t ≠ "我要上傳照片" := by rintro rfl; revert ht; decide
  have h2 : t ≠ "修改電話" := by rintro rfl; revert ht; decide
  simp [handleMessageA, beq_iff_eq, h1, h2, hw, ht, hp, runA, applyWriteA]

/-- C4, witness: the amended theorem applied to the concrete waiting member
and the new number `0922222222`. -/
theorem c4_witness :
    memberConfirmPending.waitingForPhone = true ∧
    (runA memberConfirmPending
        (handleMessageA (some memberConfirmPending) (.textMsg "0922222222") 0 "U3")).phone
      = some "0911111111" :=
  ⟨rfl,
   (c4_amended memberConfirmPending "0922222222" "0911111111" 0 "U3" rfl rfl
      (by decide)).2.1⟩

/-! ## Claim C5: ConfirmPhoneNo is a pure rollback -/

/-- C5, confirmed.  For a member in the confirmation-pending sub-state, the
`confirm_update_phone_no` postback of `src/index.js` produces exactly the
rollback write and the cancellation reply: the phone field is identical
before and after, `pending_phone` is cleared, and the waiting flag is
dropped (back to the non-pending state). -/
theorem c5_confirmed (m : MemberA) (p : String) (_hp : m.pendingPhone = some p) :
    handlePostbackA (some m) "confirm_update_phone_no" =
      [.dbWrite .clearPendingStopWaiting, .reply [.text "❎ 已取消電話更新。"]] ∧
    (runA m (handlePostbackA (some m) "confirm_update_phone_no")).phone = m.phone ∧
    (runA m (handlePostbackA (some m) "confirm_update_phone_no")).pendingPhone = none ∧
    (runA m (handlePostbackA (some m) "confirm_update_phone_no")).waitingForPhone
      = false := by
  simp [handlePostbackA, runA, applyWriteA]

/-- C5, witness: the confirmed theorem applied to the concrete
confirmation-pending member. -/
theorem c5_witness :
    memberConfirmPending.pendingPhone = some "0922222222" ∧
    (runA memberConfirmPending
        (handlePostbackA (some memberConfirmPending) "confirm_update_phone_no")).phone
      = memberConfirmPending.phone :=
  ⟨rfl, (c5_confirmed memberConfirmPending "0922222222" rfl).2.1⟩

/-! ## Claim C6: re-follow causes no state change -/

/-- C6, counterexample.  In `src/index.js`, a Follow event for an existing
member sets `waiting_for_phone` to true: a member field changes, so the
re-follow is not the claimed no-op. -/
theorem c6_counterexample :
    memberIdleA.waitingForPhone = false ∧
    (runA memberIdleA (handleFollowEventA (some memberIdleA) "小華" 99)).waitingForPhone
      = true := by
  decide

/-- C6, amended.  On a Follow event for an already-existing member no record
is created; in `src/unnamed/part_001` (`handleFollow`) the member row is
completely unchanged and the only effect is a fixed phone-prompt reply (not
a state-dependent reminder), while in `src/index.js` (`handleFollowEvent`)
the re-follow additionally sets the `waiting_for_phone` flag to true,
leaving every other field unchanged, before the fixed welcome/phone-prompt
reply. -/
theorem c6_amended (m : MemberA) (mB : MemberB) (dn : String) (nid : Nat) :
    handleFollowEventA (some m) dn nid =
      [.dbWrite .setWaiting,
       .reply [.text ("🎉 歡迎加入會員，" ++ dn ++ "！"), .text phonePromptA]] ∧
    runA m (handleFollowEventA (some m) dn nid) = { m with waitingForPhone := true } ∧
    handleFollowB (some mB) dn =
      [.reply [.text "請輸入您的手機號碼（例如：0912345678）開始註冊。"]] ∧
    runB mB (handleFollowB (some mB) dn) = mB := by
  refine ⟨rfl, ?_, rfl, rfl⟩
  obtain ⟨a, b, c, d, e, f, g⟩ := m
  rfl

/-! ## Claim C7: unknown-member events -/

/-- C7, counterexample.  In `src/index.js`, a text message from a user with
no member record is answered with a "no member data" reply: the event is
dropped but not silently, contradicting the claim that no reply is sent. -/
theorem c7_counterexample :
    handleMessageA none (.textMsg "hello") 0 "U123" =
      [.reply [.text "⚠️ 查無會員資料，請重新加入。"]] := by
  rfl

/-- C7, amended.  An event for an `externalUserId` with no member record
never creates or modifies a member record in any handler: the postback
handlers of both variants do nothing, `src/unnamed/part_003`'s message
handler does nothing, `src/unnamed/part_001`'s message handler does nothing
except for the restart command (whose `UPDATE` matches no row and which
still replies), and `src/index.js`'s message handler performs no database
write — but it is not always silent: it replies with a "no member data"
notice for text (see the counterexample) and even uploads an image before
the member check. -/
theorem c7_amended (ev : MsgEvent) (now : Nat) (uid data : String) :
    (handleMessageA none ev now uid).all (fun e => !(isWriteA e)) = true ∧
    handlePostbackA none data = [] ∧
    handlePostbackB none data = [] ∧
    handleMessageEventC none ev now = [] ∧
    (∀ t, t ≠ "重新註冊" → handleMessageB none (.textMsg t) now = []) ∧
    (∀ mid, handleMessageB none (.imageMsg mid) now = []) := by
  refine ⟨?_, rfl, rfl, ?_, ?_, fun mid => rfl⟩
  · cases ev <;> rfl
  · cases ev <;> rfl
  · intro t hr
    simp [handleMessageB, beq_iff_eq, hr]

/-- C7, witness: the amended theorem applied to the concrete text `hello`
from an unknown user. -/
theorem c7_witness :
    handleMessageB none (.textMsg "hello") 0 = [] :=
  (c7_amended (.textMsg "hello") 0 "U123" "my_qr").2.2.2.2.1 "hello" (by decide)

/-! ## Claim C8: the staleness sweep -/

/-- C8, counterexample.  The sweep of `src/unnamed/part_001` keys on
`created_at`, not on a last-activity time: a member in step 2 whose row was
created 48 hours ago but who was active 8 hours ago is reset to step 1 even
though the claim's `lastActiveAt` condition says it must not be touched. -/
theorem c8_counterexample :
    sweepStale 48 trackedStaleRow.member = true ∧
    sweepStaleSpec 48 trackedStaleRow = false ∧
    (sweepTick 48 [trackedStaleRow.member]).1 =
      [{ trackedStaleRow.member with registrationStep := 1 }] ∧
    trackedStaleRow.member.registrationStep = 2 := by
  decide

/-- C8, amended.  The sweep resets to step 1 exactly those members whose
state is one of steps 1/2/3 and whose `created_at` (not `lastActiveAt`,
which the stored row does not have) is older than the 24-hour window; every
other member — in particular any member in step 0 (`Registered`) or steps
10-13 (`Edit*`) — is left unchanged, and the sweep sends no outbound
message. -/
theorem c8_amended (now : Nat) (m : MemberB) :
    (sweepTick now [m]).2 = [] ∧
    (1 ≤ m.registrationStep → m.registrationStep ≤ 3 →
      m.createdAt + staleWindowHours < now →
      (sweepTick now [m]).1 = [{ m with registrationStep := 1 }]) ∧
    (¬ (1 ≤ m.registrationStep ∧ m.registrationStep ≤ 3 ∧
        m.createdAt + staleWindowHours < now) →
      (sweepTick now [m]).1 = [m]) := by
  refine ⟨rfl, ?_, ?_⟩
  · intro h1 h2 h3
    simp [sweepTick, sweepStale, h1, h2, h3]
  · intro h
    have hs : sweepStale now m = false := by
      simp only [sweepStale, Bool.and_eq_false_iff, decide_eq_false_iff_not]
      by_cases h1 : 1 ≤ m.registrationStep
      · by_cases h2 : m.registrationStep ≤ 3
        · exact Or.inr (fun h3 => h ⟨h1, h2, h3⟩)
        · exact Or.inl (Or.inr h2)
      · exact Or.inl (Or.inl h1)
    simp [sweepTick, hs]

/-- C8, witness: the amended theorem applied to the concrete stale step-2
row at hour 48. -/
theorem c8_witness :
    (sweepTick 48 [memberStaleRow]).1 = [{ memberStaleRow with registrationStep := 1 }] :=
  (c8_amended 48 memberStaleRow).2.1 (by decide) (by decide) (by decide)

/-! ## Claim C9: persistence before messaging -/

/-- C9, counterexample.  The `confirm_update_phone_yes` path of
`src/index.js` (`handlePostback` lines 286-293) sends the reply inside
`updatePhoneAndSendMenu` and only afterwards issues the `UPDATE` clearing
`pending_phone`: a persistence write follows a message for the same event,
contradicting the claimed ordering. -/
theorem c9_counterexample :
    writesBeforeRepliesA
        (handlePostbackA (some memberConfirmPending) "confirm_update_phone_yes")
      = false := by
  decide

/-- C9, amended.  In `src/index.js`, every handler path applies its
persistence writes before any reply for the same event — except the
`confirm_update_phone_yes` postback, whose effect list is exactly the phone
update and menu reply of `updatePhoneAndSendMenu` followed by the
`pending_phone`-clearing write after the reply. -/
theorem c9_amended (member : Option MemberA) (ev : MsgEvent) (now : Nat)
    (uid dn data : String) (nid : Nat) :
    writesBeforeRepliesA (handleMessageA member ev now uid) = true ∧
    writesBeforeRepliesA (handleFollowEventA member dn nid) = true ∧
    (data ≠ "confirm_update_phone_yes" →
      writesBeforeRepliesA (handlePostbackA member data) = true) ∧
    (∀ m p, member = some m → m.pendingPhone = some p →
      handlePostbackA member "confirm_update_phone_yes" =
        updatePhoneAndSendMenuA m p ++ [.dbWrite .clearPending]) := by
  refine ⟨?_, ?_, ?_, ?_⟩
  · cases ev with
    | imageMsg mid => rfl
    | textMsg t =>
      cases member with
      | none => rfl
      | some m =>
        simp only [handleMessageA, updatePhoneAndSendMenuA]
        repeat' split
        all_goals rfl
  · cases member <;> rfl
  · intro hd
    cases member with
    | none => rfl
    | some m =>
      simp only [handlePostbackA]
      split
      · rename_i hcond
        rw [Bool.and_eq_true, beq_iff_eq] at hcond
        exact absurd hcond.1 hd
      · repeat' split
        all_goals rfl
  · rintro m p rfl hp
    simp [handlePostbackA, hp]

/-- C9, witness: the amended theorem applied to the `confirm_update_phone_no`
postback on the concrete pending member. -/
theorem c9_witness :
    writesBeforeRepliesA
        (handlePostbackA (some memberConfirmPending) "confirm_update_phone_no")
      = true :=
  (c9_amended (some memberConfirmPending) (.textMsg "x") 0 "U3" "n"
      "confirm_update_phone_no" 9).2.2.1 (by decide)

/-! ## Claim C10: ConfirmPhoneYes with nothing pending -/

/-- C10, confirmed.  For a member whose `pending_phone` is null, the
`confirm_update_phone_yes` postback of `src/index.js` falls through every
branch: no effect at all is produced, so no field is written and no reply is
sent, and the member row is unchanged. -/
theorem c10_confirmed (m : MemberA) (h : m.pendingPhone = none) :
    handlePostbackA (some m) "confirm_update_phone_yes" = [] ∧
    runA m (handlePostbackA (some m) "confirm_update_phone_yes") = m := by
  simp [handlePostbackA, h, runA]

/-- C10, witness: the confirmed theorem applied to the concrete idle
member. -/
theorem c10_witness :
    handlePostbackA (some memberIdleA) "confirm_update_phone_yes" = [] :=
  (c10_confirmed memberIdleA rfl).1

end LineBot
